import Mathlib

/-!
# Verification of the battery-utility-calculator optimization engine

A shallow embedding of the `battery_utility_calculator` package:

* `Storage` mirrors `battery_utility_calculator/storage.py`;
* `ECCInst`, `Alloc`, `Feasible` and `objective` mirror the optimization
  model built by `EnergyCostCalculator` in
  `battery_utility_calculator/energy_costs_calculator.py`
  (`set_model_variables`, `set_model_constraints`, `set_model_objective`);
* `calculate_storage_worth`, `calculate_bidding_curve` mirror
  `battery_utility_calculator/battery_utility_calculator.py`.

Machine reals are modelled as `ℚ`; the external LP solver is modelled
as an oracle `ECCInst → ℚ` together with the predicate
`IsOptimalObjective` stating that a value is the optimal objective of an
instance.
-/

namespace BatteryUtility

/-- The four named storage use cases (`"eeg"`, `"wholesale"`, `"community"`,
`"home"` in the source). -/
inductive UseCase where
  | eeg
  | wholesale
  | community
  | home
deriving DecidableEq, Repr

/-- Mirror of `Storage` in `battery_utility_calculator/storage.py`:
id, c-rate, volume, and charge/discharge efficiencies (default 0.98). -/
structure Storage where
  id : ℚ
  c_rate : ℚ
  volume : ℚ
  charge_efficiency : ℚ := 49 / 50
  discharge_efficiency : ℚ := 49 / 50
deriving DecidableEq, Repr

/-- One optimization instance as assembled by `EnergyCostCalculator.__init__`:
the storage, the six aligned time series (as functions of the 0-based
timestep), the horizon length `T = len(demand)`, the active use-case list and
the five channel-activation flags. -/
structure ECCInst where
  storage : Storage
  demand : ℕ → ℚ
  solar_generation : ℕ → ℚ
  grid_prices : ℕ → ℚ
  eeg_prices : ℕ → ℚ
  community_market_prices : ℕ → ℚ
  wholesale_market_prices : ℕ → ℚ
  T : ℕ
  storage_use_cases : List UseCase := [.eeg, .wholesale, .community, .home]
  allow_pv_to_community : Bool := false
  allow_storage_to_wholesale : Bool := false
  allow_community_to_home : Bool := false
  allow_community_to_storage : Bool := false
  allow_storage_to_community : Bool := false

/-- One assignment to the decision variables declared in
`set_model_variables`: a value per directed energy-flow edge and per
per-use-case storage level, at every timestep. -/
structure Alloc where
  pv_to_eeg : ℕ → ℚ
  pv_to_wholesale : ℕ → ℚ
  pv_to_community : ℕ → ℚ
  pv_to_storage : ℕ → UseCase → ℚ
  pv_to_home : ℕ → ℚ
  storage_level : ℕ → UseCase → ℚ
  storage_to_eeg : ℕ → ℚ
  storage_to_wholesale : ℕ → ℚ
  storage_to_community : ℕ → ℚ
  storage_to_home : ℕ → ℚ
  wholesale_to_storage : ℕ → ℚ
  community_to_storage : ℕ → ℚ
  community_to_home : ℕ → ℚ
  supplier_to_storage : ℕ → ℚ
  supplier_to_home : ℕ → ℚ

/-- The all-zero variable assignment. -/
def Alloc.zero : Alloc where
  pv_to_eeg := fun _ => 0
  pv_to_wholesale := fun _ => 0
  pv_to_community := fun _ => 0
  pv_to_storage := fun _ _ => 0
  pv_to_home := fun _ => 0
  storage_level := fun _ _ => 0
  storage_to_eeg := fun _ => 0
  storage_to_wholesale := fun _ => 0
  storage_to_community := fun _ => 0
  storage_to_home := fun _ => 0
  wholesale_to_storage := fun _ => 0
  community_to_storage := fun _ => 0
  community_to_home := fun _ => 0
  supplier_to_storage := fun _ => 0
  supplier_to_home := fun _ => 0

/-- Sum of `f` over the active use-case list, mirroring the Python
`sum(x[timestep, use] for use in self.storage_use_cases)`. -/
def ucSum (l : List UseCase) (f : UseCase → ℚ) : ℚ :=
  (l.map f).sum

/-- Feasibility of a variable assignment for one instance: the
`NonNegativeReals` domains and the `(0, 0)` bounds of disabled channels from
`set_model_variables`, plus every constraint block from
`set_model_constraints`.  The state-of-charge recurrences use an implicit
zero starting charge at timestep 0 and are instantiated only for use cases
present in `storage_use_cases`, exactly as in the source. -/
structure Feasible (e : ECCInst) (x : Alloc) : Prop where
  pv_to_eeg_nonneg : ∀ t < e.T, 0 ≤ x.pv_to_eeg t
  pv_to_wholesale_nonneg : ∀ t < e.T, 0 ≤ x.pv_to_wholesale t
  pv_to_community_nonneg : ∀ t < e.T, 0 ≤ x.pv_to_community t
  pv_to_storage_nonneg : ∀ t < e.T, ∀ u ∈ e.storage_use_cases, 0 ≤ x.pv_to_storage t u
  pv_to_home_nonneg : ∀ t < e.T, 0 ≤ x.pv_to_home t
  storage_level_nonneg : ∀ t < e.T, ∀ u ∈ e.storage_use_cases, 0 ≤ x.storage_level t u
  storage_to_eeg_nonneg : ∀ t < e.T, 0 ≤ x.storage_to_eeg t
  storage_to_wholesale_nonneg : ∀ t < e.T, 0 ≤ x.storage_to_wholesale t
  storage_to_community_nonneg : ∀ t < e.T, 0 ≤ x.storage_to_community t
  storage_to_home_nonneg : ∀ t < e.T, 0 ≤ x.storage_to_home t
  wholesale_to_storage_nonneg : ∀ t < e.T, 0 ≤ x.wholesale_to_storage t
  community_to_storage_nonneg : ∀ t < e.T, 0 ≤ x.community_to_storage t
  community_to_home_nonneg : ∀ t < e.T, 0 ≤ x.community_to_home t
  supplier_to_storage_nonneg : ∀ t < e.T, 0 ≤ x.supplier_to_storage t
  supplier_to_home_nonneg : ∀ t < e.T, 0 ≤ x.supplier_to_home t
  pv_to_community_disabled :
    e.allow_pv_to_community = false → ∀ t < e.T, x.pv_to_community t = 0
  storage_to_wholesale_disabled :
    e.allow_storage_to_wholesale = false → ∀ t < e.T, x.storage_to_wholesale t = 0
  storage_to_community_disabled :
    e.allow_storage_to_community = false → ∀ t < e.T, x.storage_to_community t = 0
  community_to_storage_disabled :
    e.allow_community_to_storage = false → ∀ t < e.T, x.community_to_storage t = 0
  community_to_home_disabled :
    e.allow_community_to_home = false → ∀ t < e.T, x.community_to_home t = 0
  demand_restriction : ∀ t < e.T,
    x.storage_to_home t + x.pv_to_home t + x.supplier_to_home t
      + x.community_to_home t = e.demand t
  solar_gen_restriction : ∀ t < e.T,
    ucSum e.storage_use_cases (x.pv_to_storage t)
      + x.pv_to_eeg t + x.pv_to_home t + x.pv_to_wholesale t
      + x.pv_to_community t ≤ e.solar_generation t
  storage_charge_restriction : ∀ t < e.T,
    ucSum e.storage_use_cases (x.pv_to_storage t)
      + x.wholesale_to_storage t + x.community_to_storage t
      + x.supplier_to_storage t ≤ e.storage.c_rate * e.storage.volume
  storage_discharge_restriction : ∀ t < e.T,
    x.storage_to_eeg t + x.storage_to_wholesale t + x.storage_to_community t
      + x.storage_to_home t ≤ e.storage.c_rate * e.storage.volume
  storage_level_restriction : ∀ t < e.T,
    ucSum e.storage_use_cases (x.storage_level t) ≤ e.storage.volume
  storage_level_non_negative : ∀ t < e.T,
    0 ≤ ucSum e.storage_use_cases (x.storage_level t)
  soc_eeg_restriction : UseCase.eeg ∈ e.storage_use_cases → ∀ t < e.T,
    x.storage_level t .eeg
      = (if t = 0 then 0 else x.storage_level (t - 1) .eeg)
        + x.pv_to_storage t .eeg - x.storage_to_eeg t
  soc_wholesale_restriction : UseCase.wholesale ∈ e.storage_use_cases → ∀ t < e.T,
    x.storage_level t .wholesale
      = (if t = 0 then 0 else x.storage_level (t - 1) .wholesale)
        + x.wholesale_to_storage t - x.storage_to_wholesale t
  soc_community_restriction : UseCase.community ∈ e.storage_use_cases → ∀ t < e.T,
    x.storage_level t .community
      = (if t = 0 then 0 else x.storage_level (t - 1) .community)
        + x.community_to_storage t - x.storage_to_community t
  soc_home_restriction : UseCase.home ∈ e.storage_use_cases → ∀ t < e.T,
    x.storage_level t .home
      = (if t = 0 then 0 else x.storage_level (t - 1) .home)
        + x.supplier_to_storage t + x.pv_to_storage t .home
        - x.storage_to_home t

/-- Community-market cashflow term of the objective
(`community_cf` in `set_model_objective`). -/
def community_cf (e : ECCInst) (x : Alloc) : ℚ :=
  (∑ t ∈ Finset.range e.T, x.storage_to_community t * e.community_market_prices t)
    + (∑ t ∈ Finset.range e.T, x.pv_to_community t * e.community_market_prices t)
    - (∑ t ∈ Finset.range e.T, x.community_to_storage t * e.community_market_prices t)
    - (∑ t ∈ Finset.range e.T, x.community_to_home t * e.community_market_prices t)

/-- Supplier (grid) cashflow term of the objective
(`supplier_cf` in `set_model_objective`). -/
def supplier_cf (e : ECCInst) (x : Alloc) : ℚ :=
  -(∑ t ∈ Finset.range e.T, x.supplier_to_storage t * e.grid_prices t)
    - (∑ t ∈ Finset.range e.T, x.supplier_to_home t * e.grid_prices t)

/-- EEG (feed-in) cashflow term of the objective
(`eeg_cf` in `set_model_objective`). -/
def eeg_cf (e : ECCInst) (x : Alloc) : ℚ :=
  (∑ t ∈ Finset.range e.T, x.storage_to_eeg t * e.eeg_prices t)
    + (∑ t ∈ Finset.range e.T, x.pv_to_eeg t * e.eeg_prices t)

/-- Wholesale-market cashflow term of the objective
(`wholesale_cf` in `set_model_objective`). -/
def wholesale_cf (e : ECCInst) (x : Alloc) : ℚ :=
  (∑ t ∈ Finset.range e.T, x.storage_to_wholesale t * e.wholesale_market_prices t)
    - (∑ t ∈ Finset.range e.T, x.wholesale_to_storage t * e.wholesale_market_prices t)

/-- The maximized objective of `set_model_objective`: the sum of the four
channel cashflows. -/
def objective (e : ECCInst) (x : Alloc) : ℚ :=
  community_cf e x + supplier_cf e x + eeg_cf e x + wholesale_cf e x

/-- The value `v` is the optimal objective value of instance `e`: attained by a
feasible assignment and bounds every feasible assignment from above
(the model is a maximization). -/
def IsOptimalObjective (e : ECCInst) (v : ℚ) : Prop :=
  (∃ x, Feasible e x ∧ objective e x = v) ∧
    ∀ x, Feasible e x → objective e x ≤ v

/-- The optimal objective value of an instance is unique. -/
theorem IsOptimalObjective.unique {e : ECCInst} {v w : ℚ}
    (hv : IsOptimalObjective e v) (hw : IsOptimalObjective e w) : v = w := by
  obtain ⟨⟨xv, hxv, hxv2⟩, hbv⟩ := hv
  obtain ⟨⟨xw, hxw, hxw2⟩, hbw⟩ := hw
  have h1 : v ≤ w := hxv2 ▸ hbw xv hxv
  have h2 : w ≤ v := hxw2 ▸ hbv xw hxw
  exact le_antisymm h1 h2

/-! ## Storage valuation (`battery_utility_calculator.py`) -/

/-- The inputs of `calculate_storage_worth` other than the two storages and
the solver name: the six series (with horizon `T`), the use-case list and the
four channel flags the function accepts.  Defaults mirror the Python
signature. -/
structure WorthArgs where
  demand : ℕ → ℚ
  solar_generation : ℕ → ℚ
  grid_prices : ℕ → ℚ
  eeg_prices : ℕ → ℚ
  community_market_prices : ℕ → ℚ
  wholesale_market_prices : ℕ → ℚ
  T : ℕ
  storage_use_cases : List UseCase := [.eeg, .home, .community, .wholesale]
  allow_community_to_home : Bool := false
  allow_community_to_storage : Bool := false
  allow_pv_to_community : Bool := false
  allow_storage_to_wholesale : Bool := false

/-- The `EnergyCostCalculator` instance `calculate_storage_worth` constructs
for a given storage: every remaining input is forwarded unchanged, and
`allow_storage_to_community` (not a parameter of the function) stays at the
engine default `False`. -/
def worthInstance (storage : Storage) (a : WorthArgs) : ECCInst where
  storage := storage
  demand := a.demand
  solar_generation := a.solar_generation
  grid_prices := a.grid_prices
  eeg_prices := a.eeg_prices
  community_market_prices := a.community_market_prices
  wholesale_market_prices := a.wholesale_market_prices
  T := a.T
  storage_use_cases := a.storage_use_cases
  allow_pv_to_community := a.allow_pv_to_community
  allow_storage_to_wholesale := a.allow_storage_to_wholesale
  allow_community_to_home := a.allow_community_to_home
  allow_community_to_storage := a.allow_community_to_storage
  allow_storage_to_community := false

/-- Mirror of `calculate_storage_worth`: solve the engine once with the
baseline storage and once with the candidate storage (identical remaining
inputs), and return the difference of the two returned objective values.
The external LP solver is the oracle `solve`. -/
def calculate_storage_worth (solve : ECCInst → ℚ)
    (baseline_storage storage_to_calculate : Storage) (a : WorthArgs) : ℚ :=
  let baseline_costs := solve (worthInstance baseline_storage a)
  let to_calc_costs := solve (worthInstance storage_to_calculate a)
  to_calc_costs - baseline_costs

/-- A zero-volume storage with unit efficiencies, used as a concrete input. -/
def zeroStorage : Storage :=
  { id := 0, c_rate := 1, volume := 0, charge_efficiency := 1,
    discharge_efficiency := 1 }

/-- Concrete `calculate_storage_worth` inputs: a one-step horizon with every
series identically zero and default use cases and flags. -/
def zeroArgs : WorthArgs where
  demand := fun _ => 0
  solar_generation := fun _ => 0
  grid_prices := fun _ => 0
  eeg_prices := fun _ => 0
  community_market_prices := fun _ => 0
  wholesale_market_prices := fun _ => 0
  T := 1

/-- The all-zero assignment is feasible for the all-zero instance. -/
theorem feasible_zero_zeroArgs :
    Feasible (worthInstance zeroStorage zeroArgs) Alloc.zero := by
  constructor <;>
    simp [Alloc.zero, ucSum, worthInstance, zeroArgs, zeroStorage]

/-- With every price series identically zero, the optimal objective of the
all-zero instance is `0`. -/
theorem isOptimal_zeroArgs :
    IsOptimalObjective (worthInstance zeroStorage zeroArgs) 0 := by
  constructor
  · exact ⟨Alloc.zero, feasible_zero_zeroArgs, by
      simp [objective, community_cf, supplier_cf, eeg_cf, wholesale_cf,
        worthInstance, zeroArgs]⟩
  · intro x _
    simp [objective, community_cf, supplier_cf, eeg_cf, wholesale_cf,
      worthInstance, zeroArgs]

/-- Enlarging the storage (volume and c-rate) keeps every feasible
assignment feasible: the storage enters the constraints only through the
charge/discharge capacity `c_rate * volume` and the level bound `volume`. -/
theorem feasible_mono_storage {A B : Storage} {a : WorthArgs} {x : Alloc}
    (hvol0 : 0 ≤ A.volume) (hvol : A.volume ≤ B.volume)
    (hcr0 : 0 ≤ A.c_rate) (hcr : A.c_rate ≤ B.c_rate)
    (hx : Feasible (worthInstance A a) x) :
    Feasible (worthInstance B a) x := by
  have hcap : A.c_rate * A.volume ≤ B.c_rate * B.volume :=
    mul_le_mul hcr hvol hvol0 (hcr0.trans hcr)
  exact {
    pv_to_eeg_nonneg := hx.pv_to_eeg_nonneg
    pv_to_wholesale_nonneg := hx.pv_to_wholesale_nonneg
    pv_to_community_nonneg := hx.pv_to_community_nonneg
    pv_to_storage_nonneg := hx.pv_to_storage_nonneg
    pv_to_home_nonneg := hx.pv_to_home_nonneg
    storage_level_nonneg := hx.storage_level_nonneg
    storage_to_eeg_nonneg := hx.storage_to_eeg_nonneg
    storage_to_wholesale_nonneg := hx.storage_to_wholesale_nonneg
    storage_to_community_nonneg := hx.storage_to_community_nonneg
    storage_to_home_nonneg := hx.storage_to_home_nonneg
    wholesale_to_storage_nonneg := hx.wholesale_to_storage_nonneg
    community_to_storage_nonneg := hx.community_to_storage_nonneg
    community_to_home_nonneg := hx.community_to_home_nonneg
    supplier_to_storage_nonneg := hx.supplier_to_storage_nonneg
    supplier_to_home_nonneg := hx.supplier_to_home_nonneg
    pv_to_community_disabled := hx.pv_to_community_disabled
    storage_to_wholesale_disabled := hx.storage_to_wholesale_disabled
    storage_to_community_disabled := hx.storage_to_community_disabled
    community_to_storage_disabled := hx.community_to_storage_disabled
    community_to_home_disabled := hx.community_to_home_disabled
    demand_restriction := hx.demand_restriction
    solar_gen_restriction := hx.solar_gen_restriction
    storage_charge_restriction := fun t ht =>
      (hx.storage_charge_restriction t ht).trans hcap
    storage_discharge_restriction := fun t ht =>
      (hx.storage_discharge_restriction t ht).trans hcap
    storage_level_restriction := fun t ht =>
      (hx.storage_level_restriction t ht).trans hvol
    storage_level_non_negative := hx.storage_level_non_negative
    soc_eeg_restriction := hx.soc_eeg_restriction
    soc_wholesale_restriction := hx.soc_wholesale_restriction
    soc_community_restriction := hx.soc_community_restriction
    soc_home_restriction := hx.soc_home_restriction }

/-- C1: for every baseline storage, candidate storage, and fixed set of
time-series inputs and channel flags, `calculate_storage_worth` returns
exactly the optimal objective value of the candidate minus the optimal
objective value, where each objective comes from solving one instance built
with identical remaining inputs and flags. -/
theorem c1_storage_worth_is_objective_delta (solve : ECCInst → ℚ)
    (baseline candidate : Storage) (a : WorthArgs) (vb vc : ℚ)
    (_hb : IsOptimalObjective (worthInstance baseline a) vb)
    (_hc : IsOptimalObjective (worthInstance candidate a) vc)
    (hsb : solve (worthInstance baseline a) = vb)
    (hsc : solve (worthInstance candidate a) = vc) :
    calculate_storage_worth solve baseline candidate a = vc - vb := by
  simp only [calculate_storage_worth]
  rw [hsb, hsc]

/-- Witness for C1 at a concrete instance: the all-zero one-step problem has
optimal objective `0` for any storage, and the worth is `0 - 0`. -/
theorem c1_witness :
    calculate_storage_worth (fun _ => 0) zeroStorage zeroStorage zeroArgs
      = 0 - 0 :=
  c1_storage_worth_is_objective_delta (fun _ => 0) zeroStorage zeroStorage
    zeroArgs 0 0 isOptimal_zeroArgs isOptimal_zeroArgs rfl rfl

/-- C3: with all other inputs fixed and a solver that returns the optimal
objective values, storage worth is monotone in storage capability: if `A` has
at most the volume and c-rate of `B` (both valid, i.e. non-negative), then
`calculate_storage_worth` at `A` is at most `calculate_storage_worth` at `B`,
because every assignment feasible for `A` is feasible for `B`. -/
theorem c3_storage_worth_monotone (solve : ECCInst → ℚ)
    (A B baseline : Storage) (a : WorthArgs) (vA vB : ℚ)
    (hvol0 : 0 ≤ A.volume) (hvol : A.volume ≤ B.volume)
    (hcr0 : 0 ≤ A.c_rate) (hcr : A.c_rate ≤ B.c_rate)
    (hA : IsOptimalObjective (worthInstance A a) vA)
    (hB : IsOptimalObjective (worthInstance B a) vB)
    (hsA : solve (worthInstance A a) = vA)
    (hsB : solve (worthInstance B a) = vB) :
    calculate_storage_worth solve baseline A a
      ≤ calculate_storage_worth solve baseline B a := by
  have hAB : vA ≤ vB := by
    obtain ⟨⟨x, hxf, hxo⟩, _⟩ := hA
    obtain ⟨_, hbB⟩ := hB
    have hxB : Feasible (worthInstance B a) x :=
      feasible_mono_storage hvol0 hvol hcr0 hcr hxf
    have hle : objective (worthInstance B a) x ≤ vB := hbB x hxB
    have hobj : objective (worthInstance A a) x
        = objective (worthInstance B a) x := rfl
    linarith [hxo, hobj, hle]
  simp only [calculate_storage_worth]
  rw [hsA, hsB]
  linarith

/-- Witness for C3 at a concrete instance (`A = B` = the zero storage). -/
theorem c3_witness :
    calculate_storage_worth (fun _ => 0) zeroStorage zeroStorage zeroArgs
      ≤ calculate_storage_worth (fun _ => 0) zeroStorage zeroStorage zeroArgs :=
  c3_storage_worth_monotone (fun _ => 0) zeroStorage zeroStorage zeroStorage
    zeroArgs 0 0 (by norm_num [zeroStorage]) (by norm_num [zeroStorage])
    (by norm_num [zeroStorage]) (by norm_num [zeroStorage])
    isOptimal_zeroArgs isOptimal_zeroArgs rfl rfl

/-! ## C4: pure grid purchase with a zero-volume storage -/

/-- The engine instance for constant demand `D`, constant grid price `p`,
horizon `T`, zero solar generation, zero feed-in/community/wholesale prices,
storage `s`, and default use cases and flags. -/
def constDemandInst (s : Storage) (D p : ℚ) (T : ℕ) : ECCInst where
  storage := s
  demand := fun _ => D
  solar_generation := fun _ => 0
  grid_prices := fun _ => p
  eeg_prices := fun _ => 0
  community_market_prices := fun _ => 0
  wholesale_market_prices := fun _ => 0
  T := T

/-- With a zero-volume storage every feasible assignment of
`constDemandInst` buys the whole demand from the grid: its objective is
exactly `-(D * p * T)`. -/
theorem constDemand_objective_eq {s : Storage} {D p : ℚ} {T : ℕ}
    (hvol : s.volume = 0) {x : Alloc}
    (hx : Feasible (constDemandInst s D p T) x) :
    objective (constDemandInst s D p T) x = -(D * p * T) := by
  have hmemh : UseCase.home ∈ [UseCase.eeg, .wholesale, .community, .home] := by
    decide
  have hs2h : ∀ t, t < T → x.storage_to_home t = 0 := by
    intro t ht
    have hc := hx.storage_discharge_restriction t ht
    simp only [constDemandInst, hvol, mul_zero] at hc
    linarith [hx.storage_to_eeg_nonneg t ht, hx.storage_to_wholesale_nonneg t ht,
      hx.storage_to_community_nonneg t ht, hx.storage_to_home_nonneg t ht]
  have hpv2h : ∀ t, t < T → x.pv_to_home t = 0 := by
    intro t ht
    have hc := hx.solar_gen_restriction t ht
    simp only [constDemandInst, ucSum, List.map, List.sum_cons, List.sum_nil,
      add_zero] at hc
    linarith [hx.pv_to_storage_nonneg t ht .eeg (by simp [constDemandInst]),
      hx.pv_to_storage_nonneg t ht .wholesale (by simp [constDemandInst]),
      hx.pv_to_storage_nonneg t ht .community (by simp [constDemandInst]),
      hx.pv_to_storage_nonneg t ht .home (by simp [constDemandInst]),
      hx.pv_to_eeg_nonneg t ht, hx.pv_to_home_nonneg t ht,
      hx.pv_to_wholesale_nonneg t ht, hx.pv_to_community_nonneg t ht]
  have hc2h : ∀ t, t < T → x.community_to_home t = 0 :=
    hx.community_to_home_disabled rfl
  have hsup2s : ∀ t, t < T → x.supplier_to_storage t = 0 := by
    intro t ht
    have hc := hx.storage_charge_restriction t ht
    simp only [constDemandInst, hvol, mul_zero, ucSum, List.map,
      List.sum_cons, List.sum_nil, add_zero] at hc
    linarith [hx.pv_to_storage_nonneg t ht .eeg (by simp [constDemandInst]),
      hx.pv_to_storage_nonneg t ht .wholesale (by simp [constDemandInst]),
      hx.pv_to_storage_nonneg t ht .community (by simp [constDemandInst]),
      hx.pv_to_storage_nonneg t ht .home (by simp [constDemandInst]),
      hx.wholesale_to_storage_nonneg t ht,
      hx.community_to_storage_nonneg t ht,
      hx.supplier_to_storage_nonneg t ht]
  have hsup2h : ∀ t, t < T → x.supplier_to_home t = D := by
    intro t ht
    have hd := hx.demand_restriction t ht
    simp only [constDemandInst] at hd
    have h1 := hs2h t ht
    have h2 := hpv2h t ht
    have h3 := hc2h t ht
    linarith
  have hz1 : ∑ t ∈ Finset.range T, x.supplier_to_storage t * p = 0 :=
    Finset.sum_eq_zero fun t htm => by
      rw [hsup2s t (Finset.mem_range.mp htm), zero_mul]
  have hz2 : ∑ t ∈ Finset.range T, x.supplier_to_home t * p = D * p * T := by
    rw [Finset.sum_congr rfl
      (fun t htm => by rw [hsup2h t (Finset.mem_range.mp htm)])]
    rw [Finset.sum_const, Finset.card_range, nsmul_eq_mul]
    ring
  unfold objective community_cf supplier_cf eeg_cf wholesale_cf
  simp only [constDemandInst, mul_zero, Finset.sum_const_zero]
  rw [hz1, hz2]
  ring

/-- The constant-grid-purchase assignment is feasible for
`constDemandInst` whenever `D ≥ 0`. -/
theorem constDemand_feasible {s : Storage} {D p : ℚ} {T : ℕ}
    (hvol : s.volume = 0) (hD : 0 ≤ D) :
    Feasible (constDemandInst s D p T)
      { Alloc.zero with supplier_to_home := fun _ => D } := by
  constructor <;>
    simp [Alloc.zero, ucSum, constDemandInst, hvol, hD]

/-- C4: for every constant demand `D ≥ 0`, constant grid price `p`, horizon
`T ≥ 1`, zero-volume storage, zero solar generation and zero
feed-in/community/wholesale prices, the optimal objective value is
`-(D * p * T)`. -/
theorem c4_constant_demand_objective (s : Storage) (D p : ℚ) (T : ℕ)
    (hvol : s.volume = 0) (hD : 0 ≤ D) (_hT : 1 ≤ T) :
    IsOptimalObjective (constDemandInst s D p T) (-(D * p * T)) := by
  constructor
  · exact ⟨{ Alloc.zero with supplier_to_home := fun _ => D },
      constDemand_feasible hvol hD,
      constDemand_objective_eq hvol (constDemand_feasible hvol hD)⟩
  · intro x hx
    exact le_of_eq (constDemand_objective_eq hvol hx)

/-- Witness for C4 at `D = 1`, `p = 2`, `T = 1` with the zero storage. -/
theorem c4_witness :
    IsOptimalObjective (constDemandInst zeroStorage 1 2 1)
      (-(1 * 2 * ((1 : ℕ) : ℚ))) :=
  c4_constant_demand_objective zeroStorage 1 2 1 (by norm_num [zeroStorage])
    (by norm_num) (by norm_num)

/-! ## C2: the charge/discharge-efficiency scenario -/

/-- The storage of `test_ECC_charge_discharge_eff`: c-rate 1, volume 1,
charge efficiency 0.5, discharge efficiency 1. -/
def effScenarioStorage : Storage :=
  { id := 0, c_rate := 1, volume := 1, charge_efficiency := 1 / 2,
    discharge_efficiency := 1 }

/-- The engine instance of the efficiency scenario: demand `[1, 1, 1]`,
grid prices `[0, 1, 1]`, zero solar generation, all other prices zero,
default use cases and flags. -/
def effScenarioInst : ECCInst where
  storage := effScenarioStorage
  demand := fun _ => 1
  solar_generation := fun _ => 0
  grid_prices := fun t => if t = 0 then 0 else 1
  eeg_prices := fun _ => 0
  community_market_prices := fun _ => 0
  wholesale_market_prices := fun _ => 0
  T := 3

/-- Optimal dispatch for the scenario under the efficiency-free engine
recurrence: charge 1 kWh from the grid at `t = 0`, discharge it to the home
at `t = 1`, buy from the grid at `t = 0` and `t = 2`. -/
def effScenarioAlloc : Alloc :=
  { Alloc.zero with
    supplier_to_home := fun t => if t = 1 then 0 else 1
    storage_to_home := fun t => if t = 1 then 1 else 0
    supplier_to_storage := fun t => if t = 0 then 1 else 0
    storage_level := fun t u => if u = UseCase.home ∧ t = 0 then 1 else 0 }

theorem effScenarioAlloc_feasible : Feasible effScenarioInst effScenarioAlloc := by
  constructor
  case pv_to_eeg_nonneg => intro t _; simp [effScenarioAlloc, Alloc.zero]
  case pv_to_wholesale_nonneg => intro t _; simp [effScenarioAlloc, Alloc.zero]
  case pv_to_community_nonneg => intro t _; simp [effScenarioAlloc, Alloc.zero]
  case pv_to_storage_nonneg => intro t _ u _; simp [effScenarioAlloc, Alloc.zero]
  case pv_to_home_nonneg => intro t _; simp [effScenarioAlloc, Alloc.zero]
  case storage_level_nonneg =>
    intro t _ u _
    simp only [effScenarioAlloc, Alloc.zero]
    split_ifs <;> norm_num
  case storage_to_eeg_nonneg => intro t _; simp [effScenarioAlloc, Alloc.zero]
  case storage_to_wholesale_nonneg => intro t _; simp [effScenarioAlloc, Alloc.zero]
  case storage_to_community_nonneg => intro t _; simp [effScenarioAlloc, Alloc.zero]
  case storage_to_home_nonneg =>
    intro t _
    simp only [effScenarioAlloc, Alloc.zero]
    split_ifs <;> norm_num
  case wholesale_to_storage_nonneg => intro t _; simp [effScenarioAlloc, Alloc.zero]
  case community_to_storage_nonneg => intro t _; simp [effScenarioAlloc, Alloc.zero]
  case community_to_home_nonneg => intro t _; simp [effScenarioAlloc, Alloc.zero]
  case supplier_to_storage_nonneg =>
    intro t _
    simp only [effScenarioAlloc, Alloc.zero]
    split_ifs <;> norm_num
  case supplier_to_home_nonneg =>
    intro t _
    simp only [effScenarioAlloc, Alloc.zero]
    split_ifs <;> norm_num
  case pv_to_community_disabled =>
    intro _ t _; simp [effScenarioAlloc, Alloc.zero]
  case storage_to_wholesale_disabled =>
    intro _ t _; simp [effScenarioAlloc, Alloc.zero]
  case storage_to_community_disabled =>
    intro _ t _; simp [effScenarioAlloc, Alloc.zero]
  case community_to_storage_disabled =>
    intro _ t _; simp [effScenarioAlloc, Alloc.zero]
  case community_to_home_disabled =>
    intro _ t _; simp [effScenarioAlloc, Alloc.zero]
  case demand_restriction =>
    intro t _
    simp only [effScenarioAlloc, Alloc.zero, effScenarioInst]
    split_ifs <;> norm_num
  case solar_gen_restriction =>
    intro t _
    simp [effScenarioAlloc, Alloc.zero, effScenarioInst, ucSum]
  case storage_charge_restriction =>
    intro t _
    simp only [effScenarioAlloc, Alloc.zero, effScenarioInst,
      effScenarioStorage, ucSum, List.map, List.sum_cons, List.sum_nil]
    split_ifs <;> norm_num
  case storage_discharge_restriction =>
    intro t _
    simp only [effScenarioAlloc, Alloc.zero, effScenarioInst,
      effScenarioStorage]
    split_ifs <;> norm_num
  case storage_level_restriction =>
    intro t _
    simp only [effScenarioAlloc, Alloc.zero, effScenarioInst,
      effScenarioStorage, ucSum, List.map, List.sum_cons, List.sum_nil]
    split_ifs <;> simp_all
  case storage_level_non_negative =>
    intro t _
    simp only [effScenarioAlloc, Alloc.zero, effScenarioInst,
      effScenarioStorage, ucSum, List.map, List.sum_cons, List.sum_nil]
    split_ifs <;> simp_all
  case soc_eeg_restriction =>
    intro _ t _
    simp [effScenarioAlloc, Alloc.zero]
  case soc_wholesale_restriction =>
    intro _ t _
    simp [effScenarioAlloc, Alloc.zero]
  case soc_community_restriction =>
    intro _ t _
    simp [effScenarioAlloc, Alloc.zero]
  case soc_home_restriction =>
    intro _ t _
    simp only [effScenarioAlloc, Alloc.zero]
    split_ifs <;> (first | (simp_all; done) | omega)

/-- Every assignment feasible for the engine model of the efficiency
scenario has objective at most `-1`: the state-of-charge recurrence of
`set_model_constraints` applies no efficiency factor, so the full charged
kWh is recoverable. -/
theorem effScenario_objective_le {x : Alloc}
    (hx : Feasible effScenarioInst x) :
    objective effScenarioInst x ≤ -1 := by
  have hmemh : UseCase.home ∈ effScenarioInst.storage_use_cases := by decide
  have hmeme : UseCase.eeg ∈ effScenarioInst.storage_use_cases := by decide
  have hmemw : UseCase.wholesale ∈ effScenarioInst.storage_use_cases := by decide
  have hmemc : UseCase.community ∈ effScenarioInst.storage_use_cases := by decide
  have d1 := hx.demand_restriction 1 (by norm_num [effScenarioInst])
  have d2 := hx.demand_restriction 2 (by norm_num [effScenarioInst])
  have ch1 := hx.community_to_home_disabled rfl 1 (by norm_num [effScenarioInst])
  have ch2 := hx.community_to_home_disabled rfl 2 (by norm_num [effScenarioInst])
  have sh0 := hx.soc_home_restriction hmemh 0 (by norm_num [effScenarioInst])
  have sh1 := hx.soc_home_restriction hmemh 1 (by norm_num [effScenarioInst])
  have sh2 := hx.soc_home_restriction hmemh 2 (by norm_num [effScenarioInst])
  simp only [if_pos rfl] at sh0
  norm_num at sh1 sh2
  have lvmax0 := hx.storage_level_restriction 0 (by norm_num [effScenarioInst])
  simp only [effScenarioInst, effScenarioStorage, ucSum, List.map,
    List.sum_cons, List.sum_nil, add_zero] at lvmax0
  have lve0 := hx.storage_level_nonneg 0 (by norm_num [effScenarioInst]) .eeg hmeme
  have lvw0 := hx.storage_level_nonneg 0 (by norm_num [effScenarioInst]) .wholesale hmemw
  have lvc0 := hx.storage_level_nonneg 0 (by norm_num [effScenarioInst]) .community hmemc
  have lh2nn := hx.storage_level_nonneg 2 (by norm_num [effScenarioInst]) .home hmemh
  have s2h0nn := hx.storage_to_home_nonneg 0 (by norm_num [effScenarioInst])
  have solar1 := hx.solar_gen_restriction 1 (by norm_num [effScenarioInst])
  have solar2 := hx.solar_gen_restriction 2 (by norm_num [effScenarioInst])
  simp only [effScenarioInst, ucSum, List.map, List.sum_cons, List.sum_nil,
    add_zero] at solar1 solar2
  have pse1 := hx.pv_to_storage_nonneg 1 (by norm_num [effScenarioInst]) .eeg hmeme
  have psw1 := hx.pv_to_storage_nonneg 1 (by norm_num [effScenarioInst]) .wholesale hmemw
  have psc1 := hx.pv_to_storage_nonneg 1 (by norm_num [effScenarioInst]) .community hmemc
  have psh1 := hx.pv_to_storage_nonneg 1 (by norm_num [effScenarioInst]) .home hmemh
  have pse2 := hx.pv_to_storage_nonneg 2 (by norm_num [effScenarioInst]) .eeg hmeme
  have psw2 := hx.pv_to_storage_nonneg 2 (by norm_num [effScenarioInst]) .wholesale hmemw
  have psc2 := hx.pv_to_storage_nonneg 2 (by norm_num [effScenarioInst]) .community hmemc
  have psh2 := hx.pv_to_storage_nonneg 2 (by norm_num [effScenarioInst]) .home hmemh
  have pe1 := hx.pv_to_eeg_nonneg 1 (by norm_num [effScenarioInst])
  have ph1 := hx.pv_to_home_nonneg 1 (by norm_num [effScenarioInst])
  have pw1 := hx.pv_to_wholesale_nonneg 1 (by norm_num [effScenarioInst])
  have pc1 := hx.pv_to_community_nonneg 1 (by norm_num [effScenarioInst])
  have pe2 := hx.pv_to_eeg_nonneg 2 (by norm_num [effScenarioInst])
  have ph2 := hx.pv_to_home_nonneg 2 (by norm_num [effScenarioInst])
  have pw2 := hx.pv_to_wholesale_nonneg 2 (by norm_num [effScenarioInst])
  have pc2 := hx.pv_to_community_nonneg 2 (by norm_num [effScenarioInst])
  simp only [effScenarioInst] at d1 d2
  unfold objective community_cf supplier_cf eeg_cf wholesale_cf
  simp only [effScenarioInst, Finset.sum_range_succ, Finset.sum_range_zero]
  norm_num
  linarith

/-- The engine model of the efficiency scenario has optimal objective
value `-1` (not `-1.5`): the recurrence ignores the efficiencies. -/
theorem effScenario_code_optimal :
    IsOptimalObjective effScenarioInst (-1) := by
  constructor
  · refine ⟨effScenarioAlloc, effScenarioAlloc_feasible, ?_⟩
    unfold objective community_cf supplier_cf eeg_cf wholesale_cf
    simp only [effScenarioAlloc, effScenarioInst, Alloc.zero,
      Finset.sum_range_succ, Finset.sum_range_zero]
    norm_num
  · exact fun x hx => effScenario_objective_le hx

/-- Modelled from the spec: the efficiency-aware state-of-charge recurrence
required by the design notes and exercised by
`test_ECC_charge_discharge_eff`, whose engine variant (accepting
`charge_efficiency`/`discharge_efficiency`) is not among the visible
sources.  Identical to `Feasible` except that in every state-of-charge
recurrence the inflow is scaled by the charge efficiency on entry and the
outflow by the inverse of the discharge efficiency on exit. -/
structure FeasibleEffAware (e : ECCInst) (x : Alloc) : Prop where
  pv_to_eeg_nonneg : ∀ t < e.T, 0 ≤ x.pv_to_eeg t
  pv_to_wholesale_nonneg : ∀ t < e.T, 0 ≤ x.pv_to_wholesale t
  pv_to_community_nonneg : ∀ t < e.T, 0 ≤ x.pv_to_community t
  pv_to_storage_nonneg : ∀ t < e.T, ∀ u ∈ e.storage_use_cases, 0 ≤ x.pv_to_storage t u
  pv_to_home_nonneg : ∀ t < e.T, 0 ≤ x.pv_to_home t
  storage_level_nonneg : ∀ t < e.T, ∀ u ∈ e.storage_use_cases, 0 ≤ x.storage_level t u
  storage_to_eeg_nonneg : ∀ t < e.T, 0 ≤ x.storage_to_eeg t
  storage_to_wholesale_nonneg : ∀ t < e.T, 0 ≤ x.storage_to_wholesale t
  storage_to_community_nonneg : ∀ t < e.T, 0 ≤ x.storage_to_community t
  storage_to_home_nonneg : ∀ t < e.T, 0 ≤ x.storage_to_home t
  wholesale_to_storage_nonneg : ∀ t < e.T, 0 ≤ x.wholesale_to_storage t
  community_to_storage_nonneg : ∀ t < e.T, 0 ≤ x.community_to_storage t
  community_to_home_nonneg : ∀ t < e.T, 0 ≤ x.community_to_home t
  supplier_to_storage_nonneg : ∀ t < e.T, 0 ≤ x.supplier_to_storage t
  supplier_to_home_nonneg : ∀ t < e.T, 0 ≤ x.supplier_to_home t
  pv_to_community_disabled :
    e.allow_pv_to_community = false → ∀ t < e.T, x.pv_to_community t = 0
  storage_to_wholesale_disabled :
    e.allow_storage_to_wholesale = false → ∀ t < e.T, x.storage_to_wholesale t = 0
  storage_to_community_disabled :
    e.allow_storage_to_community = false → ∀ t < e.T, x.storage_to_community t = 0
  community_to_storage_disabled :
    e.allow_community_to_storage = false → ∀ t < e.T, x.community_to_storage t = 0
  community_to_home_disabled :
    e.allow_community_to_home = false → ∀ t < e.T, x.community_to_home t = 0
  demand_restriction : ∀ t < e.T,
    x.storage_to_home t + x.pv_to_home t + x.supplier_to_home t
      + x.community_to_home t = e.demand t
  solar_gen_restriction : ∀ t < e.T,
    ucSum e.storage_use_cases (x.pv_to_storage t)
      + x.pv_to_eeg t + x.pv_to_home t + x.pv_to_wholesale t
      + x.pv_to_community t ≤ e.solar_generation t
  storage_charge_restriction : ∀ t < e.T,
    ucSum e.storage_use_cases (x.pv_to_storage t)
      + x.wholesale_to_storage t + x.community_to_storage t
      + x.supplier_to_storage t ≤ e.storage.c_rate * e.storage.volume
  storage_discharge_restriction : ∀ t < e.T,
    x.storage_to_eeg t + x.storage_to_wholesale t + x.storage_to_community t
      + x.storage_to_home t ≤ e.storage.c_rate * e.storage.volume
  storage_level_restriction : ∀ t < e.T,
    ucSum e.storage_use_cases (x.storage_level t) ≤ e.storage.volume
  storage_level_non_negative : ∀ t < e.T,
    0 ≤ ucSum e.storage_use_cases (x.storage_level t)
  soc_eeg_restriction : UseCase.eeg ∈ e.storage_use_cases → ∀ t < e.T,
    x.storage_level t .eeg
      = (if t = 0 then 0 else x.storage_level (t - 1) .eeg)
        + e.storage.charge_efficiency * x.pv_to_storage t .eeg
        - x.storage_to_eeg t / e.storage.discharge_efficiency
  soc_wholesale_restriction : UseCase.wholesale ∈ e.storage_use_cases → ∀ t < e.T,
    x.storage_level t .wholesale
      = (if t = 0 then 0 else x.storage_level (t - 1) .wholesale)
        + e.storage.charge_efficiency * x.wholesale_to_storage t
        - x.storage_to_wholesale t / e.storage.discharge_efficiency
  soc_community_restriction : UseCase.community ∈ e.storage_use_cases → ∀ t < e.T,
    x.storage_level t .community
      = (if t = 0 then 0 else x.storage_level (t - 1) .community)
        + e.storage.charge_efficiency * x.community_to_storage t
        - x.storage_to_community t / e.storage.discharge_efficiency
  soc_home_restriction : UseCase.home ∈ e.storage_use_cases → ∀ t < e.T,
    x.storage_level t .home
      = (if t = 0 then 0 else x.storage_level (t - 1) .home)
        + e.storage.charge_efficiency
          * (x.supplier_to_storage t + x.pv_to_storage t .home)
        - x.storage_to_home t / e.storage.discharge_efficiency

/-- Optimal objective value of an instance under the spec-modelled
efficiency-aware recurrence. -/
def IsOptimalObjectiveEffAware (e : ECCInst) (v : ℚ) : Prop :=
  (∃ x, FeasibleEffAware e x ∧ objective e x = v) ∧
    ∀ x, FeasibleEffAware e x → objective e x ≤ v

/-- Optimal dispatch for the scenario under the efficiency-aware recurrence:
charging 1 kWh from the grid at `t = 0` stores only 0.5 kWh, which is
discharged to the home at `t = 1`; the rest is bought from the grid. -/
def effScenarioAllocEff : Alloc :=
  { Alloc.zero with
    supplier_to_home := fun t => if t = 1 then 1 / 2 else 1
    storage_to_home := fun t => if t = 1 then 1 / 2 else 0
    supplier_to_storage := fun t => if t = 0 then 1 else 0
    storage_level := fun t u =>
      if u = UseCase.home ∧ t = 0 then 1 / 2 else 0 }

theorem effScenarioAllocEff_feasible :
    FeasibleEffAware effScenarioInst effScenarioAllocEff := by
  constructor
  case pv_to_eeg_nonneg => intro t _; simp [effScenarioAllocEff, Alloc.zero]
  case pv_to_wholesale_nonneg => intro t _; simp [effScenarioAllocEff, Alloc.zero]
  case pv_to_community_nonneg => intro t _; simp [effScenarioAllocEff, Alloc.zero]
  case pv_to_storage_nonneg => intro t _ u _; simp [effScenarioAllocEff, Alloc.zero]
  case pv_to_home_nonneg => intro t _; simp [effScenarioAllocEff, Alloc.zero]
  case storage_level_nonneg =>
    intro t _ u _
    simp only [effScenarioAllocEff, Alloc.zero]
    split_ifs <;> norm_num
  case storage_to_eeg_nonneg => intro t _; simp [effScenarioAllocEff, Alloc.zero]
  case storage_to_wholesale_nonneg => intro t _; simp [effScenarioAllocEff, Alloc.zero]
  case storage_to_community_nonneg => intro t _; simp [effScenarioAllocEff, Alloc.zero]
  case storage_to_home_nonneg =>
    intro t _
    simp only [effScenarioAllocEff, Alloc.zero]
    split_ifs <;> norm_num
  case wholesale_to_storage_nonneg => intro t _; simp [effScenarioAllocEff, Alloc.zero]
  case community_to_storage_nonneg => intro t _; simp [effScenarioAllocEff, Alloc.zero]
  case community_to_home_nonneg => intro t _; simp [effScenarioAllocEff, Alloc.zero]
  case supplier_to_storage_nonneg =>
    intro t _
    simp only [effScenarioAllocEff, Alloc.zero]
    split_ifs <;> norm_num
  case supplier_to_home_nonneg =>
    intro t _
    simp only [effScenarioAllocEff, Alloc.zero]
    split_ifs <;> norm_num
  case pv_to_community_disabled =>
    intro _ t _; simp [effScenarioAllocEff, Alloc.zero]
  case storage_to_wholesale_disabled =>
    intro _ t _; simp [effScenarioAllocEff, Alloc.zero]
  case storage_to_community_disabled =>
    intro _ t _; simp [effScenarioAllocEff, Alloc.zero]
  case community_to_storage_disabled =>
    intro _ t _; simp [effScenarioAllocEff, Alloc.zero]
  case community_to_home_disabled =>
    intro _ t _; simp [effScenarioAllocEff, Alloc.zero]
  case demand_restriction =>
    intro t _
    simp only [effScenarioAllocEff, Alloc.zero, effScenarioInst]
    split_ifs <;> norm_num
  case solar_gen_restriction =>
    intro t _
    simp [effScenarioAllocEff, Alloc.zero, effScenarioInst, ucSum]
  case storage_charge_restriction =>
    intro t _
    simp only [effScenarioAllocEff, Alloc.zero, effScenarioInst,
      effScenarioStorage, ucSum, List.map, List.sum_cons, List.sum_nil]
    split_ifs <;> norm_num
  case storage_discharge_restriction =>
    intro t _
    simp only [effScenarioAllocEff, Alloc.zero, effScenarioInst,
      effScenarioStorage]
    split_ifs <;> norm_num
  case storage_level_restriction =>
    intro t _
    simp only [effScenarioAllocEff, Alloc.zero, effScenarioInst,
      effScenarioStorage, ucSum, List.map, List.sum_cons, List.sum_nil]
    split_ifs <;> simp_all <;> norm_num
  case storage_level_non_negative =>
    intro t _
    simp only [effScenarioAllocEff, Alloc.zero, effScenarioInst,
      effScenarioStorage, ucSum, List.map, List.sum_cons, List.sum_nil]
    split_ifs <;> simp_all <;> norm_num
  case soc_eeg_restriction =>
    intro _ t _
    simp [effScenarioAllocEff, Alloc.zero, effScenarioInst, effScenarioStorage]
  case soc_wholesale_restriction =>
    intro _ t _
    simp [effScenarioAllocEff, Alloc.zero, effScenarioInst, effScenarioStorage]
  case soc_community_restriction =>
    intro _ t _
    simp [effScenarioAllocEff, Alloc.zero, effScenarioInst, effScenarioStorage]
  case soc_home_restriction =>
    intro _ t _
    simp only [effScenarioAllocEff, Alloc.zero, effScenarioInst,
      effScenarioStorage]
    split_ifs <;> (first | (simp_all; done) | omega | norm_num)

/-- Under the spec-modelled efficiency-aware recurrence every feasible
assignment of the scenario has objective at most `-1.5`: only half of each
charged kWh is recoverable. -/
theorem effScenario_objective_le_effAware {x : Alloc}
    (hx : FeasibleEffAware effScenarioInst x) :
    objective effScenarioInst x ≤ -(3 / 2) := by
  have hmemh : UseCase.home ∈ effScenarioInst.storage_use_cases := by decide
  have hmeme : UseCase.eeg ∈ effScenarioInst.storage_use_cases := by decide
  have hmemw : UseCase.wholesale ∈ effScenarioInst.storage_use_cases := by decide
  have hmemc : UseCase.community ∈ effScenarioInst.storage_use_cases := by decide
  have d1 := hx.demand_restriction 1 (by norm_num [effScenarioInst])
  have d2 := hx.demand_restriction 2 (by norm_num [effScenarioInst])
  have ch1 := hx.community_to_home_disabled rfl 1 (by norm_num [effScenarioInst])
  have ch2 := hx.community_to_home_disabled rfl 2 (by norm_num [effScenarioInst])
  have sh0 := hx.soc_home_restriction hmemh 0 (by norm_num [effScenarioInst])
  have sh1 := hx.soc_home_restriction hmemh 1 (by norm_num [effScenarioInst])
  have sh2 := hx.soc_home_restriction hmemh 2 (by norm_num [effScenarioInst])
  simp only [effScenarioInst, effScenarioStorage] at sh0 sh1 sh2
  norm_num at sh0 sh1 sh2
  have lvmax0 := hx.storage_level_restriction 0 (by norm_num [effScenarioInst])
  simp only [effScenarioInst, effScenarioStorage, ucSum, List.map,
    List.sum_cons, List.sum_nil, add_zero] at lvmax0
  have lve0 := hx.storage_level_nonneg 0 (by norm_num [effScenarioInst]) .eeg hmeme
  have lvw0 := hx.storage_level_nonneg 0 (by norm_num [effScenarioInst]) .wholesale hmemw
  have lvc0 := hx.storage_level_nonneg 0 (by norm_num [effScenarioInst]) .community hmemc
  have lh2nn := hx.storage_level_nonneg 2 (by norm_num [effScenarioInst]) .home hmemh
  have s2h0nn := hx.storage_to_home_nonneg 0 (by norm_num [effScenarioInst])
  have charge0 := hx.storage_charge_restriction 0 (by norm_num [effScenarioInst])
  simp only [effScenarioInst, effScenarioStorage, ucSum, List.map,
    List.sum_cons, List.sum_nil, add_zero] at charge0
  have ws2s0nn := hx.wholesale_to_storage_nonneg 0 (by norm_num [effScenarioInst])
  have c2s0nn := hx.community_to_storage_nonneg 0 (by norm_num [effScenarioInst])
  have sup2s1nn := hx.supplier_to_storage_nonneg 1 (by norm_num [effScenarioInst])
  have sup2s2nn := hx.supplier_to_storage_nonneg 2 (by norm_num [effScenarioInst])
  have solar0 := hx.solar_gen_restriction 0 (by norm_num [effScenarioInst])
  have solar1 := hx.solar_gen_restriction 1 (by norm_num [effScenarioInst])
  have solar2 := hx.solar_gen_restriction 2 (by norm_num [effScenarioInst])
  simp only [effScenarioInst, ucSum, List.map, List.sum_cons, List.sum_nil,
    add_zero] at solar0 solar1 solar2
  have pse0 := hx.pv_to_storage_nonneg 0 (by norm_num [effScenarioInst]) .eeg hmeme
  have psw0 := hx.pv_to_storage_nonneg 0 (by norm_num [effScenarioInst]) .wholesale hmemw
  have psc0 := hx.pv_to_storage_nonneg 0 (by norm_num [effScenarioInst]) .community hmemc
  have psh0 := hx.pv_to_storage_nonneg 0 (by norm_num [effScenarioInst]) .home hmemh
  have pse1 := hx.pv_to_storage_nonneg 1 (by norm_num [effScenarioInst]) .eeg hmeme
  have psw1 := hx.pv_to_storage_nonneg 1 (by norm_num [effScenarioInst]) .wholesale hmemw
  have psc1 := hx.pv_to_storage_nonneg 1 (by norm_num [effScenarioInst]) .community hmemc
  have psh1 := hx.pv_to_storage_nonneg 1 (by norm_num [effScenarioInst]) .home hmemh
  have pse2 := hx.pv_to_storage_nonneg 2 (by norm_num [effScenarioInst]) .eeg hmeme
  have psw2 := hx.pv_to_storage_nonneg 2 (by norm_num [effScenarioInst]) .wholesale hmemw
  have psc2 := hx.pv_to_storage_nonneg 2 (by norm_num [effScenarioInst]) .community hmemc
  have psh2 := hx.pv_to_storage_nonneg 2 (by norm_num [effScenarioInst]) .home hmemh
  have pe0 := hx.pv_to_eeg_nonneg 0 (by norm_num [effScenarioInst])
  have ph0 := hx.pv_to_home_nonneg 0 (by norm_num [effScenarioInst])
  have pw0 := hx.pv_to_wholesale_nonneg 0 (by norm_num [effScenarioInst])
  have pc0 := hx.pv_to_community_nonneg 0 (by norm_num [effScenarioInst])
  have pe1 := hx.pv_to_eeg_nonneg 1 (by norm_num [effScenarioInst])
  have ph1 := hx.pv_to_home_nonneg 1 (by norm_num [effScenarioInst])
  have pw1 := hx.pv_to_wholesale_nonneg 1 (by norm_num [effScenarioInst])
  have pc1 := hx.pv_to_community_nonneg 1 (by norm_num [effScenarioInst])
  have pe2 := hx.pv_to_eeg_nonneg 2 (by norm_num [effScenarioInst])
  have ph2 := hx.pv_to_home_nonneg 2 (by norm_num [effScenarioInst])
  have pw2 := hx.pv_to_wholesale_nonneg 2 (by norm_num [effScenarioInst])
  have pc2 := hx.pv_to_community_nonneg 2 (by norm_num [effScenarioInst])
  simp only [effScenarioInst] at d1 d2
  unfold objective community_cf supplier_cf eeg_cf wholesale_cf
  simp only [effScenarioInst, Finset.sum_range_succ, Finset.sum_range_zero]
  norm_num
  linarith

/-- Under the spec-modelled efficiency-aware recurrence, the optimal
objective value of the scenario is `-1.5`. -/
theorem effScenario_effAware_optimal :
    IsOptimalObjectiveEffAware effScenarioInst (-(3 / 2)) := by
  constructor
  · refine ⟨effScenarioAllocEff, effScenarioAllocEff_feasible, ?_⟩
    unfold objective community_cf supplier_cf eeg_cf wholesale_cf
    simp only [effScenarioAllocEff, effScenarioInst, Alloc.zero,
      Finset.sum_range_succ, Finset.sum_range_zero]
    norm_num
  · exact fun x hx => effScenario_objective_le_effAware hx

/-- C2: for the scenario of `test_ECC_charge_discharge_eff` (c-rate 1,
volume 1, charge efficiency 0.5, discharge efficiency 1, demand `[1,1,1]`,
grid prices `[0,1,1]`, zero solar and other prices), the claimed optimal
objective `-1.5` arises only under the spec-modelled efficiency-aware
recurrence; the engine as implemented in `set_model_constraints` ignores the
efficiencies, its optimal objective is `-1`, and in particular it is not
`-1.5`.  The code therefore contradicts its own test suite. -/
theorem c2_efficiency_scenario :
    IsOptimalObjective effScenarioInst (-1)
      ∧ IsOptimalObjectiveEffAware effScenarioInst (-(3 / 2))
      ∧ ∀ v, IsOptimalObjective effScenarioInst v → v ≠ -(3 / 2) := by
  refine ⟨effScenario_code_optimal, effScenario_effAware_optimal, ?_⟩
  intro v hv
  have hv1 : v = -1 := IsOptimalObjective.unique hv effScenario_code_optimal
  rw [hv1]
  norm_num

/-! ## C9: community prices are immaterial when community channels are off -/

/-- An engine instance with all four community-channel flags at their
default `False`, parametrized by the community price series `p` and the
(irrelevant to the community channels) `allow_storage_to_wholesale` flag. -/
def communityOffInst (s : Storage) (dem sol grid eegP ws p : ℕ → ℚ)
    (T : ℕ) (ucs : List UseCase) (b : Bool) : ECCInst where
  storage := s
  demand := dem
  solar_generation := sol
  grid_prices := grid
  eeg_prices := eegP
  community_market_prices := p
  wholesale_market_prices := ws
  T := T
  storage_use_cases := ucs
  allow_pv_to_community := false
  allow_storage_to_wholesale := b
  allow_community_to_home := false
  allow_community_to_storage := false
  allow_storage_to_community := false

/-- With every community channel disabled, the community cashflow of any
feasible assignment is zero: each community flow variable is bounded to
`[0, 0]`. -/
theorem community_cf_eq_zero {e : ECCInst} {x : Alloc} (hx : Feasible e x)
    (h1 : e.allow_storage_to_community = false)
    (h2 : e.allow_pv_to_community = false)
    (h3 : e.allow_community_to_storage = false)
    (h4 : e.allow_community_to_home = false) :
    community_cf e x = 0 := by
  have z1 : ∑ t ∈ Finset.range e.T,
      x.storage_to_community t * e.community_market_prices t = 0 :=
    Finset.sum_eq_zero fun t htm => by
      rw [hx.storage_to_community_disabled h1 t (Finset.mem_range.mp htm),
        zero_mul]
  have z2 : ∑ t ∈ Finset.range e.T,
      x.pv_to_community t * e.community_market_prices t = 0 :=
    Finset.sum_eq_zero fun t htm => by
      rw [hx.pv_to_community_disabled h2 t (Finset.mem_range.mp htm), zero_mul]
  have z3 : ∑ t ∈ Finset.range e.T,
      x.community_to_storage t * e.community_market_prices t = 0 :=
    Finset.sum_eq_zero fun t htm => by
      rw [hx.community_to_storage_disabled h3 t (Finset.mem_range.mp htm),
        zero_mul]
  have z4 : ∑ t ∈ Finset.range e.T,
      x.community_to_home t * e.community_market_prices t = 0 :=
    Finset.sum_eq_zero fun t htm => by
      rw [hx.community_to_home_disabled h4 t (Finset.mem_range.mp htm),
        zero_mul]
  unfold community_cf
  rw [z1, z2, z3, z4]
  ring

/-- Feasibility does not read the community price series: a feasible
assignment for the instance with prices `p1` is feasible for the instance
with prices `p2`. -/
theorem feasible_community_price_swap {s : Storage}
    {dem sol grid eegP ws p1 : ℕ → ℚ} {T : ℕ} {ucs : List UseCase}
    {b : Bool} (p2 : ℕ → ℚ) {x : Alloc}
    (hx : Feasible (communityOffInst s dem sol grid eegP ws p1 T ucs b) x) :
    Feasible (communityOffInst s dem sol grid eegP ws p2 T ucs b) x :=
  { pv_to_eeg_nonneg := hx.pv_to_eeg_nonneg
    pv_to_wholesale_nonneg := hx.pv_to_wholesale_nonneg
    pv_to_community_nonneg := hx.pv_to_community_nonneg
    pv_to_storage_nonneg := hx.pv_to_storage_nonneg
    pv_to_home_nonneg := hx.pv_to_home_nonneg
    storage_level_nonneg := hx.storage_level_nonneg
    storage_to_eeg_nonneg := hx.storage_to_eeg_nonneg
    storage_to_wholesale_nonneg := hx.storage_to_wholesale_nonneg
    storage_to_community_nonneg := hx.storage_to_community_nonneg
    storage_to_home_nonneg := hx.storage_to_home_nonneg
    wholesale_to_storage_nonneg := hx.wholesale_to_storage_nonneg
    community_to_storage_nonneg := hx.community_to_storage_nonneg
    community_to_home_nonneg := hx.community_to_home_nonneg
    supplier_to_storage_nonneg := hx.supplier_to_storage_nonneg
    supplier_to_home_nonneg := hx.supplier_to_home_nonneg
    pv_to_community_disabled := hx.pv_to_community_disabled
    storage_to_wholesale_disabled := hx.storage_to_wholesale_disabled
    storage_to_community_disabled := hx.storage_to_community_disabled
    community_to_storage_disabled := hx.community_to_storage_disabled
    community_to_home_disabled := hx.community_to_home_disabled
    demand_restriction := hx.demand_restriction
    solar_gen_restriction := hx.solar_gen_restriction
    storage_charge_restriction := hx.storage_charge_restriction
    storage_discharge_restriction := hx.storage_discharge_restriction
    storage_level_restriction := hx.storage_level_restriction
    storage_level_non_negative := hx.storage_level_non_negative
    soc_eeg_restriction := hx.soc_eeg_restriction
    soc_wholesale_restriction := hx.soc_wholesale_restriction
    soc_community_restriction := hx.soc_community_restriction
    soc_home_restriction := hx.soc_home_restriction }

/-- For a feasible assignment, the objective does not depend on the
community price series when the community channels are disabled. -/
theorem objective_community_price_swap {s : Storage}
    {dem sol grid eegP ws p1 : ℕ → ℚ} {T : ℕ} {ucs : List UseCase}
    {b : Bool} (p2 : ℕ → ℚ) {x : Alloc}
    (hx : Feasible (communityOffInst s dem sol grid eegP ws p1 T ucs b) x) :
    objective (communityOffInst s dem sol grid eegP ws p2 T ucs b) x
      = objective (communityOffInst s dem sol grid eegP ws p1 T ucs b) x := by
  have hx2 : Feasible (communityOffInst s dem sol grid eegP ws p2 T ucs b) x :=
    feasible_community_price_swap p2 hx
  unfold objective
  rw [community_cf_eq_zero hx rfl rfl rfl rfl,
    community_cf_eq_zero hx2 rfl rfl rfl rfl]
  rfl

/-- C9: with all community-channel flags at their default `False`, two
engine runs that differ only in the community price series have exactly the
same optimal objective values. -/
theorem c9_community_prices_immaterial (s : Storage)
    (dem sol grid eegP ws p1 p2 : ℕ → ℚ) (T : ℕ) (ucs : List UseCase)
    (b : Bool) (v : ℚ) :
    IsOptimalObjective (communityOffInst s dem sol grid eegP ws p1 T ucs b) v
      ↔ IsOptimalObjective
          (communityOffInst s dem sol grid eegP ws p2 T ucs b) v := by
  have key : ∀ q1 q2 : ℕ → ℚ,
      IsOptimalObjective (communityOffInst s dem sol grid eegP ws q1 T ucs b) v →
        IsOptimalObjective
          (communityOffInst s dem sol grid eegP ws q2 T ucs b) v := by
    rintro q1 q2 ⟨⟨x, hxf, hxo⟩, hbd⟩
    constructor
    · exact ⟨x, feasible_community_price_swap q2 hxf,
        by rw [objective_community_price_swap q2 hxf, hxo]⟩
    · intro y hy
      have hy1 := feasible_community_price_swap q1 hy
      rw [objective_community_price_swap q2 hy1]
      exact hbd y hy1
  exact ⟨key p1 p2, key p2 p1⟩

/-! ## Bidding curves (`calculate_bidding_curve`) -/

/-- One row of the `volumes_worth` DataFrame passed to
`calculate_bidding_curve`: its positional index label, the `volume` and
`worth` columns, and the value of the optional `costs` column (`none`
standing for NaN). -/
structure BCRow where
  label : ℕ
  volume : ℚ
  worth : ℚ
  costs : Option ℚ
deriving DecidableEq, Repr

/-- The `volumes_worth` DataFrame: its rows and whether a `costs` column is
present at all. -/
structure BCFrame where
  rows : List BCRow
  hasCosts : Bool
deriving DecidableEq, Repr

/-- One row after `df.diff()`. -/
structure DiffRow where
  volume : ℚ
  worth : ℚ
  costs : Option ℚ
deriving DecidableEq, Repr

/-- One row of the returned bidding-curve DataFrame. -/
structure BidRow where
  volume : ℚ
  marginal_price : ℚ
  costs : Option ℚ
  cumulative_volume : ℚ
  marginal_price_per_kwh : ℚ
deriving DecidableEq, Repr

/-- Insertion into a volume-sorted row list (ascending, stable). -/
def insertByVolume (r : BCRow) : List BCRow → List BCRow
  | [] => [r]
  | x :: xs =>
    if r.volume ≤ x.volume then r :: x :: xs else x :: insertByVolume r xs

/-- Mirror of `df.sort_values("volume", ascending=True)`: ascending sort by the
volume column, keeping the original row labels. -/
def sortRowsByVolume (l : List BCRow) : List BCRow :=
  l.foldr insertByVolume []

/-- Running sums of a list (`Series.cumsum()`). -/
def runningSumsAux (acc : ℚ) : List ℚ → List ℚ
  | [] => []
  | v :: vs => (acc + v) :: runningSumsAux (acc + v) vs

def runningSums (l : List ℚ) : List ℚ :=
  runningSumsAux 0 l

/-- The body of `calculate_bidding_curve` after the side check: read the
`costs` column (a `KeyError` when the column is absent), difference the
sorted frame, drop NaN rows, take absolute values, re-attach the original
costs by label alignment, accumulate volumes, rename `worth` to
`marginal_price`, drop zero-volume steps and divide.  The
`marginal_price_per_kwh` column is only created in the final step; it is `0`
in the intermediate rows. -/
def bidding_curve_pipeline (vw : BCFrame) : Except String (List BidRow) :=
  let df := sortRowsByVolume vw.rows
  if vw.hasCosts = false then
    Except.error "KeyError: costs"
  else
    let original_costs := df.map (fun r => (r.label, r.costs))
    let diffed : List DiffRow :=
      (df.zip df.tail).map (fun pr =>
        { volume := pr.2.volume - pr.1.volume
          worth := pr.2.worth - pr.1.worth
          costs :=
            match pr.1.costs, pr.2.costs with
            | some a, some b => some (b - a)
            | _, _ => none })
    let kept := diffed.filter (fun r => r.costs.isSome)
    let absd := kept.map (fun r =>
      { r with
        volume := |r.volume|
        worth := |r.worth|
        costs := r.costs.map (fun c => |c|) })
    let withCosts := absd.enum.map (fun pr =>
      { pr.2 with costs := (original_costs.lookup pr.1).join })
    let cums := runningSums (withCosts.map (fun r => r.volume))
    let renamed : List BidRow := (withCosts.zip cums).map (fun pr =>
      { volume := pr.1.volume
        marginal_price := pr.1.worth
        costs := pr.1.costs
        cumulative_volume := pr.2
        marginal_price_per_kwh := 0 })
    let filtered := renamed.filter (fun r => r.volume != 0)
    Except.ok (filtered.map (fun r =>
      { r with marginal_price_per_kwh := r.marginal_price / r.volume }))

/-- Mirror of `calculate_bidding_curve`: append a `(0, 0)` anchor row to the
frame of the caller in place when no zero-volume point is present, validate the
side selector, then run the differencing pipeline.  The first component of
the result is the caller-visible state of the `volumes_worth` argument after
the call. -/
def calculate_bidding_curve (volumes_worth : BCFrame)
    (buy_or_sell_side : String) : BCFrame × Except String (List BidRow) :=
  let vw :=
    if volumes_worth.rows.any (fun r => r.volume == 0) then volumes_worth
    else
      { volumes_worth with
        rows := volumes_worth.rows
          ++ [{ label := volumes_worth.rows.length, volume := 0, worth := 0,
                costs := none }] }
  if buy_or_sell_side = "buyer" then (vw, bidding_curve_pipeline vw)
  else if buy_or_sell_side = "seller" then (vw, bidding_curve_pipeline vw)
  else (vw, Except.error "buy_or_sell_side has to be either buyer or seller")

/-- One point of the bidding curve of the spec. -/
structure BidPoint where
  volume : ℚ
  marginal_price : ℚ
  cumulative_volume : ℚ
  marginal_price_per_kwh : ℚ
deriving DecidableEq, Repr

/-- Insertion into a volume-sorted point list (ascending, stable). -/
def insertPointByVolume (p : ℚ × ℚ) : List (ℚ × ℚ) → List (ℚ × ℚ)
  | [] => [p]
  | q :: qs => if p.1 ≤ q.1 then p :: q :: qs else q :: insertPointByVolume p qs

/-- Modelled from the spec: the bidding-curve procedure of §4.6 on a plain
`(volume, worth)` point set — insert a `(0, 0)` anchor when no zero-volume
point exists, sort ascending by volume, take absolute first differences
(the all-NaN difference row of the anchor is dropped), accumulate the
differenced volumes, drop zero-volume steps and divide price by volume.
This is the computation of `calculate_bidding_curve` without the read of
the undeclared `costs` column, which is what its test exercises. -/
def bidding_curve_points (points : List (ℚ × ℚ)) : List BidPoint :=
  let pts :=
    if points.any (fun p => p.1 == 0) then points else points ++ [(0, 0)]
  let sorted := pts.foldr insertPointByVolume []
  let diffs := (sorted.zip sorted.tail).map (fun pr =>
    (|pr.2.1 - pr.1.1|, |pr.2.2 - pr.1.2|))
  let cums := runningSums (diffs.map (fun d => d.1))
  ((diffs.zip cums).filter (fun pr => pr.1.1 != 0)).map (fun pr =>
    { volume := pr.1.1
      marginal_price := pr.1.2
      cumulative_volume := pr.2
      marginal_price_per_kwh := pr.1.2 / pr.1.1 })

/-- C5: on the point set `(1,5), (2,7), (3,8)` (a frame with only the
`volume` and `worth` columns, as in its own test), `calculate_bidding_curve`
does not return the claimed curve: it fails with a `KeyError` because it
reads the absent `costs` column.  The claimed output — marginal prices
`[5, 2, 1]` at marginal volumes `[1, 1, 1]` with cumulative volumes
`[1, 2, 3]` — is exactly what the procedure produces without that read. -/
theorem c5_bidding_curve_scenario :
    (calculate_bidding_curve
        ⟨[⟨0, 1, 5, none⟩, ⟨1, 2, 7, none⟩, ⟨2, 3, 8, none⟩], false⟩
        "buyer").2 = Except.error "KeyError: costs"
    ∧ bidding_curve_points [(1, 5), (2, 7), (3, 8)]
      = [⟨1, 5, 1, 5⟩, ⟨1, 2, 2, 2⟩, ⟨1, 1, 3, 1⟩] := by
  constructor
  · norm_num [calculate_bidding_curve, bidding_curve_pipeline]
  · norm_num [bidding_curve_points, insertPointByVolume, runningSums,
      runningSumsAux]

/-- C10: whenever the input frame has no zero-volume row,
`calculate_bidding_curve` appends the `(0, 0)` anchor row to the callers
frame in place (before the side check and the curve computation), so the
caller-visible input has exactly one row more after the call. -/
theorem c10_bidding_curve_mutates_input (vw : BCFrame) (side : String)
    (h : ∀ r ∈ vw.rows, r.volume ≠ 0) :
    (calculate_bidding_curve vw side).1.rows
      = vw.rows ++ [⟨vw.rows.length, 0, 0, none⟩] := by
  have hany : vw.rows.any (fun r => r.volume == 0) = false := by
    rw [List.any_eq_false]
    intro r hr
    simpa using h r hr
  unfold calculate_bidding_curve
  split_ifs <;> simp_all

/-- Witness for C10 at a concrete one-row frame. -/
theorem c10_witness :
    (calculate_bidding_curve ⟨[⟨0, 1, 5, none⟩], false⟩ "buyer").1.rows
      = [⟨0, 1, 5, none⟩] ++ [⟨1, 0, 0, none⟩] := by
  have h := c10_bidding_curve_mutates_input ⟨[⟨0, 1, 5, none⟩], false⟩ "buyer"
    (by intro r hr; simp at hr; rw [hr]; norm_num)
  simpa using h

/-- Witness for C9 at a concrete pair of instances differing only in the
community price series. -/
theorem c9_witness :
    (IsOptimalObjective
        (communityOffInst zeroStorage (fun _ => 0) (fun _ => 0) (fun _ => 0)
          (fun _ => 0) (fun _ => 0) (fun _ => 0) 1
          [UseCase.eeg, .home, .community, .wholesale] false) 0
      ↔ IsOptimalObjective
          (communityOffInst zeroStorage (fun _ => 0) (fun _ => 0) (fun _ => 0)
            (fun _ => 0) (fun _ => 0) (fun _ => 1) 1
            [UseCase.eeg, .home, .community, .wholesale] false) 0) :=
  c9_community_prices_immaterial zeroStorage (fun _ => 0) (fun _ => 0)
    (fun _ => 0) (fun _ => 0) (fun _ => 0) (fun _ => 0) (fun _ => 1) 1
    [UseCase.eeg, .home, .community, .wholesale] false 0

/-! ## C7: `__check_timeseries_indices__` -/

/-- A pandas index: whether it is a `DatetimeIndex` and its labels. -/
structure TSIndex where
  datetime : Bool
  labels : List ℤ
deriving DecidableEq, Repr

/-- Mirror of `series.index = self.timesteps`: a matching `DatetimeIndex` is replaced
by the 0-based integer timestep index (of the demand length `n`); any other
index is kept as is. -/
def normalizeIndex (n : ℕ) (idx : TSIndex) : TSIndex :=
  if idx.datetime then { datetime := false, labels := (List.range n).map Int.ofNat }
  else idx

/-- The loop of `__check_timeseries_indices__`: each named series index is
compared against the saved demand index (`self.timestamps`); the first
mismatch raises `ValueError`, matching datetime indices are converted to the
integer timestep index. -/
def checkSeriesLoop (timestamps : TSIndex) (n : ℕ) :
    List (String × TSIndex) → Except String (List (String × TSIndex))
  | [] => Except.ok []
  | (name, idx) :: rest =>
    if idx = timestamps then
      (checkSeriesLoop timestamps n rest).map
        (fun l => (name, normalizeIndex n idx) :: l)
    else Except.error (name ++ ": all timeseries indices must be identical.")

/-- Mirror of `__check_timeseries_indices__`: validate the five series
indices against the demand index, in the attribute order of the source. -/
def check_timeseries_indices (demand_index solar grid eegI comm ws : TSIndex) :
    Except String (List (String × TSIndex)) :=
  checkSeriesLoop demand_index demand_index.labels.length
    [("solar_generation", solar), ("grid_prices", grid),
     ("eeg_prices", eegI), ("community_market_prices", comm),
     ("wholesale_market_prices", ws)]

theorem checkSeriesLoop_ok (ts : TSIndex) (n : ℕ) :
    ∀ l : List (String × TSIndex), (∀ p ∈ l, p.2 = ts) →
      checkSeriesLoop ts n l
        = Except.ok (l.map fun p => (p.1, normalizeIndex n p.2))
  | [], _ => rfl
  | (name, idx) :: tl, hall => by
    have hhd : idx = ts := hall (name, idx) (by simp)
    rw [checkSeriesLoop, if_pos hhd,
      checkSeriesLoop_ok ts n tl (fun p hp => hall p (by simp [hp]))]
    rfl

theorem checkSeriesLoop_error (ts : TSIndex) (n : ℕ) :
    ∀ l : List (String × TSIndex), (∃ p ∈ l, p.2 ≠ ts) →
      ∃ msg, checkSeriesLoop ts n l = Except.error msg
  | [], h => by simp at h
  | (name, idx) :: tl, h => by
    rw [checkSeriesLoop]
    by_cases hidx : idx = ts
    · rw [if_pos hidx]
      obtain ⟨p, hp, hne⟩ := h
      rcases List.mem_cons.mp hp with heq | htl
      · exact absurd (by rw [heq]; exact hidx) hne
      · obtain ⟨msg, hmsg⟩ := checkSeriesLoop_error ts n tl ⟨p, htl, hne⟩
        exact ⟨msg, by rw [hmsg]; rfl⟩
    · exact ⟨name ++ ": all timeseries indices must be identical.",
        by rw [if_neg hidx]⟩

/-- C7: constructing the engine raises `ValueError` whenever any of the
solar-generation or per-channel price series has an index different from the
demand index, and succeeds — performing only the documented
timestamp-to-integer-index normalization — when all six indices are
identical. -/
theorem c7_index_validation (d solar grid eegI comm ws : TSIndex) :
    ((solar = d ∧ grid = d ∧ eegI = d ∧ comm = d ∧ ws = d) →
      check_timeseries_indices d solar grid eegI comm ws
        = Except.ok
            [("solar_generation", normalizeIndex d.labels.length solar),
             ("grid_prices", normalizeIndex d.labels.length grid),
             ("eeg_prices", normalizeIndex d.labels.length eegI),
             ("community_market_prices", normalizeIndex d.labels.length comm),
             ("wholesale_market_prices", normalizeIndex d.labels.length ws)])
    ∧ (¬(solar = d ∧ grid = d ∧ eegI = d ∧ comm = d ∧ ws = d) →
        ∃ msg, check_timeseries_indices d solar grid eegI comm ws
          = Except.error msg) := by
  constructor
  · rintro ⟨h1, h2, h3, h4, h5⟩
    have h := checkSeriesLoop_ok d d.labels.length
      [("solar_generation", solar), ("grid_prices", grid),
       ("eeg_prices", eegI), ("community_market_prices", comm),
       ("wholesale_market_prices", ws)]
      (by rintro p hp; simp at hp
          rcases hp with h | h | h | h | h <;> rw [h] <;> assumption)
    simpa [check_timeseries_indices] using h
  · intro h
    apply checkSeriesLoop_error
    have h5 : solar ≠ d ∨ grid ≠ d ∨ eegI ≠ d ∨ comm ≠ d ∨ ws ≠ d := by
      tauto
    rcases h5 with h | h | h | h | h
    · exact ⟨("solar_generation", solar), by simp, h⟩
    · exact ⟨("grid_prices", grid), by simp, h⟩
    · exact ⟨("eeg_prices", eegI), by simp, h⟩
    · exact ⟨("community_market_prices", comm), by simp, h⟩
    · exact ⟨("wholesale_market_prices", ws), by simp, h⟩

/-- Witness for C7: identical integer indices pass the check unchanged, and
identical datetime indices are normalized to integer timesteps. -/
theorem c7_witness :
    check_timeseries_indices ⟨false, [7, 9]⟩ ⟨false, [7, 9]⟩ ⟨false, [7, 9]⟩
        ⟨false, [7, 9]⟩ ⟨false, [7, 9]⟩ ⟨false, [7, 9]⟩
      = Except.ok
          [("solar_generation", ⟨false, [7, 9]⟩),
           ("grid_prices", ⟨false, [7, 9]⟩),
           ("eeg_prices", ⟨false, [7, 9]⟩),
           ("community_market_prices", ⟨false, [7, 9]⟩),
           ("wholesale_market_prices", ⟨false, [7, 9]⟩)] := by
  have h := (c7_index_validation ⟨false, [7, 9]⟩ ⟨false, [7, 9]⟩
    ⟨false, [7, 9]⟩ ⟨false, [7, 9]⟩ ⟨false, [7, 9]⟩ ⟨false, [7, 9]⟩).1
    ⟨rfl, rfl, rfl, rfl, rfl⟩
  simpa [normalizeIndex] using h

/-! ## C8: the `storage=None` sentinel -/

/-- The keyword parameter names of the canonical `Storage.__init__`
(`battery_utility_calculator/storage.py`). -/
def storage_kw_names : List String :=
  ["id", "c_rate", "volume", "charge_efficiency", "discharge_efficiency"]

/-- Python keyword binding of a `Storage(...)` call against the canonical
signature: an unknown keyword raises `TypeError`; omitted efficiencies
default to 0.98. -/
def storageFromKwargs (kwargs : List (String × ℚ)) : Except String Storage :=
  match kwargs.find? (fun kv => !(storage_kw_names.contains kv.1)) with
  | some kv =>
      Except.error
        ("TypeError: Storage.__init__ got an unexpected keyword argument "
          ++ kv.1)
  | none =>
      match kwargs.lookup "id", kwargs.lookup "c_rate", kwargs.lookup "volume" with
      | some i, some c, some v =>
          Except.ok
            { id := i, c_rate := c, volume := v
              charge_efficiency :=
                (kwargs.lookup "charge_efficiency").getD (49 / 50)
              discharge_efficiency :=
                (kwargs.lookup "discharge_efficiency").getD (49 / 50) }
      | _, _, _ =>
          Except.error "TypeError: Storage.__init__ missing a required argument"

/-- The storage selection at the top of `EnergyCostCalculator.__init__`:
`if storage: self.storage = storage` (a `Storage` object is always truthy),
`else: self.storage = Storage(id=0, c_rate=1, volume=0, efficiency=1)`. -/
def ecc_select_storage (storage : Option Storage) : Except String Storage :=
  match storage with
  | some s => Except.ok s
  | none =>
      storageFromKwargs [("id", 0), ("c_rate", 1), ("volume", 0), ("efficiency", 1)]

/-- C8: constructing the engine with `storage=None` does not produce a
zero-volume sentinel — it raises `TypeError`, because the fallback call
passes the keyword `efficiency`, which the canonical `Storage.__init__`
(taking `charge_efficiency`/`discharge_efficiency`) does not accept.  An
explicit storage object is used as given. -/
theorem c8_storage_none_raises :
    ecc_select_storage none
        = Except.error
            "TypeError: Storage.__init__ got an unexpected keyword argument efficiency"
      ∧ ∀ s : Storage, ecc_select_storage (some s) = Except.ok s := by
  constructor
  · rfl
  · intro s; rfl

/-! ## C6: solver invocation and result extraction -/

/-- The runtime state of an `EnergyCostCalculator`: its instance, the
`is_optimized` flag and the solver-loaded variable values (`none` before any
solve — pyomo variables have `value = None` until values are loaded). -/
structure ECCState where
  inst : ECCInst
  is_optimized : Bool
  solution : Option Alloc

/-- The table built by `get_demand_coverage_timeseries_df`: each `from_*`
column reads `.value` of a variable, which is `None` when unsolved. -/
structure DemandCoverageTable where
  demand : List ℚ
  from_grid : List (Option ℚ)
  from_pv : List (Option ℚ)
  from_storage : List (Option ℚ)
  from_community : List (Option ℚ)
deriving DecidableEq, Repr

/-- The table built by `get_solar_generation_timeseries_df`. -/
structure PVUsageTable where
  generation : List ℚ
  to_home : List (Option ℚ)
  to_eeg : List (Option ℚ)
  to_community : List (Option ℚ)
  to_wholesale : List (Option ℚ)
  to_storage_home : List (Option ℚ)
  to_storage_eeg : List (Option ℚ)
  to_storage_wholesale : List (Option ℚ)
  to_storage_community : List (Option ℚ)
deriving DecidableEq, Repr

/-- Mirror of `get_demand_coverage_timeseries_df`: a total function — it
performs no `is_optimized` check and returns a table (of `None` values when
unsolved) instead of raising. -/
def get_demand_coverage_timeseries_df (st : ECCState) : DemandCoverageTable where
  demand := (List.range st.inst.T).map st.inst.demand
  from_grid := (List.range st.inst.T).map
    (fun t => st.solution.map (fun a => a.supplier_to_home t))
  from_pv := (List.range st.inst.T).map
    (fun t => st.solution.map (fun a => a.pv_to_home t))
  from_storage := (List.range st.inst.T).map
    (fun t => st.solution.map (fun a => a.storage_to_home t))
  from_community := (List.range st.inst.T).map
    (fun t => st.solution.map (fun a => a.community_to_home t))

/-- Mirror of `get_solar_generation_timeseries_df`: also a total function
with no `is_optimized` check. -/
def get_solar_generation_timeseries_df (st : ECCState) : PVUsageTable where
  generation := (List.range st.inst.T).map st.inst.solar_generation
  to_home := (List.range st.inst.T).map
    (fun t => st.solution.map (fun a => a.pv_to_home t))
  to_eeg := (List.range st.inst.T).map
    (fun t => st.solution.map (fun a => a.pv_to_eeg t))
  to_community := (List.range st.inst.T).map
    (fun t => st.solution.map (fun a => a.pv_to_community t))
  to_wholesale := (List.range st.inst.T).map
    (fun t => st.solution.map (fun a => a.pv_to_wholesale t))
  to_storage_home := (List.range st.inst.T).map
    (fun t => st.solution.map (fun a => a.pv_to_storage t .home))
  to_storage_eeg := (List.range st.inst.T).map
    (fun t => st.solution.map (fun a => a.pv_to_storage t .eeg))
  to_storage_wholesale := (List.range st.inst.T).map
    (fun t => st.solution.map (fun a => a.pv_to_storage t .wholesale))
  to_storage_community := (List.range st.inst.T).map
    (fun t => st.solution.map (fun a => a.pv_to_storage t .community))

/-- Mirror of `get_storage_timeseries_df`: one `soc_{use_case}` column per
active use case, no `is_optimized` check. -/
def get_storage_timeseries_df (st : ECCState) :
    List (UseCase × List (Option ℚ)) :=
  st.inst.storage_use_cases.map (fun u =>
    (u, (List.range st.inst.T).map
      (fun t => st.solution.map (fun a => a.storage_level t u))))

/-- Mirror of `output_results`: the only extraction entry point that checks
`is_optimized`, raising `ValueError` when it is still `False`. -/
def output_results (st : ECCState) :
    Except String
      (DemandCoverageTable × PVUsageTable × List (UseCase × List (Option ℚ))) :=
  if st.is_optimized = false then
    Except.error "Model not optimized yet - run class method optimize() first!"
  else
    Except.ok (get_demand_coverage_timeseries_df st,
      get_solar_generation_timeseries_df st, get_storage_timeseries_df st)

/-- What the external solver call does: either it raises (e.g. the solver
binary is unavailable) or it returns a results object — carrying a success
flag the caller may inspect — and possibly loads variable values. -/
inductive SolverBehavior where
  | raises (msg : String)
  | completes (success : Bool) (sol : Option Alloc)

/-- Mirror of `EnergyCostCalculator.optimize`: after `optimizer.solve`
returns — whether or not it reports success — the flag `is_optimized` is set
to `True` unconditionally; only a raising solver call leaves the state
unchanged (the exception propagates). -/
def ecc_optimize (st : ECCState) (b : SolverBehavior) : Except String ECCState :=
  match b with
  | .raises msg => Except.error msg
  | .completes _ sol =>
      Except.ok { st with is_optimized := true, solution := sol }

/-- A freshly constructed, never-solved engine state on the all-zero
one-step instance. -/
def freshState : ECCState where
  inst := worthInstance zeroStorage zeroArgs
  is_optimized := false
  solution := none

/-- C6 counterexample: the claim fails on the code.  Before any solve, the
demand-coverage builder returns a table (of `None` values) instead of
raising; and after a solver completion that reports failure, the instance
carries `is_optimized = True` and `output_results` succeeds — the instance
does behave as if it had been successfully solved. -/
theorem c6_extraction_before_solve_returns :
    get_demand_coverage_timeseries_df freshState
        = { demand := [0], from_grid := [none], from_pv := [none],
            from_storage := [none], from_community := [none] }
      ∧ ecc_optimize freshState (SolverBehavior.completes false none)
          = Except.ok { freshState with is_optimized := true, solution := none }
      ∧ output_results { freshState with is_optimized := true, solution := none }
          = Except.ok
              (get_demand_coverage_timeseries_df freshState,
               get_solar_generation_timeseries_df freshState,
               get_storage_timeseries_df freshState) := by
  refine ⟨rfl, rfl, rfl⟩

/-- C6 amended: only `output_results` guards on the `is_optimized` flag —
it raises `ValueError` before `optimize()` has run — while the individual
table builders perform no check, and `optimize` sets `is_optimized := True`
after any non-raising solver call regardless of the reported outcome. -/
theorem c6_only_output_results_guards (st : ECCState)
    (h : st.is_optimized = false) :
    output_results st
        = Except.error "Model not optimized yet - run class method optimize() first!"
      ∧ ∀ (success : Bool) (sol : Option Alloc),
          ecc_optimize st (SolverBehavior.completes success sol)
            = Except.ok { st with is_optimized := true, solution := sol } := by
  constructor
  · simp [output_results, h]
  · intro success sol; rfl

/-- Witness for the amended C6 at the fresh state. -/
theorem c6_witness :
    output_results freshState
        = Except.error "Model not optimized yet - run class method optimize() first!"
      ∧ ∀ (success : Bool) (sol : Option Alloc),
          ecc_optimize freshState (SolverBehavior.completes success sol)
            = Except.ok { freshState with is_optimized := true, solution := sol } :=
  c6_only_output_results_guards freshState rfl

end BatteryUtility
